import Mathlib

/-!
Shallow embedding of the yegle-bots Hacker-News Telegram bot (Go sources
`story.go`, `main.go`, `intset.go` and the Telegram request/response type
file), together with theorems settling the frozen claims about it.

Conventions of the embedding:
* Go `int64` values become `Int` (the claims only compare, never overflow).
* Go `time.Time` / `time.Duration` become `Int` nanoseconds, as in the internal Go
  representation; `24 * time.Hour` is `24 * nsPerHour`.
* Go errors become the inductive `GoError`; `errors.WithStack e` is the
  constructor `GoError.withStack e`, a value distinct from `e` itself, which
  mirrors Go interface equality: `err != ErrIgnoredItem` is true for the
  wrapped sentinel.
* The App Engine datastore is an association list keyed by item ID.
* Network interactions (item-detail fetch, Telegram POST results) are
  passed in as explicit arguments describing the responses of the world.
-/

/-- A Go `string` contains `sub` as a substring (`strings.Contains s sub`). -/
def strContains (s sub : String) : Bool :=
  s.toList.tails.any (fun t => sub.toList.isPrefixOf t)

/-- `strContains` is precisely the substring (list-infix) relation. -/
theorem strContains_substring (s sub : String) :
    strContains s sub = true ↔ sub.toList <:+: s.toList := by
  simp only [strContains, List.any_eq_true, List.isPrefixOf_iff_prefix, List.mem_tails]
  constructor
  · rintro ⟨t, ht, hp⟩
    exact List.infix_iff_prefix_suffix.2 ⟨t, hp, ht⟩
  · intro h
    obtain ⟨t, hp, hs⟩ := List.infix_iff_prefix_suffix.1 h
    exact ⟨t, hs, hp⟩

/-- `const Hot = "🔥"` (story.go). -/
def Hot : String := "🔥"

/-- `const DefaultChatID = "@yahnc"` (main.go). -/
def DefaultChatID : String := "@yahnc"

/-- `const BatchSize = 30` (main.go). -/
def BatchSize : Nat := 30

/-- Nanoseconds per hour: the Go `time.Hour` as an `Int` duration. -/
def nsPerHour : Int := 3600 * 1000000000

/-- The filtering thresholds `ScoreThreshold` and `NumCommentsThreshold`.
They are package constants of this repository defined outside the given
source files, so the embedding carries them as explicit parameters and the
theorems hold for every value. -/
structure Thresholds where
  ScoreThreshold : Int
  NumCommentsThreshold : Int
deriving DecidableEq, Repr

/-- The `Story` struct (story.go): the in-memory item, part persisted. -/
structure Story where
  ID : Int
  URL : String
  Title : String
  Descendants : Int
  Score : Int
  MessageID : Int
  LastSave : Int
  type : String
  missingFieldsLoaded : Bool
deriving DecidableEq, Repr

/-- The JSON-tagged attributes returned by the Hacker News item API, i.e.
the fields of `Story` that `json.Decoder.Decode` into a `Story` can set
(`MessageID` and `LastSave` carry the `json:"-"` tag and are never touched;
`missingFieldsLoaded` is unexported). -/
structure FeedItem where
  id : Int
  url : String
  title : String
  descendants : Int
  score : Int
  type : String
deriving DecidableEq, Repr

/-- The three datastore properties written by `(*Story).Save` (story.go):
`MessageID`, `ID` and `LastSave = time.Now()`. -/
structure PersistedStoryRecord where
  MessageID : Int
  ID : Int
  LastSave : Int
deriving DecidableEq, Repr

/-- `(*Story).Save` as a pure projection: the persisted record written for
a story at wall-clock time `now` (story.go, `Save`). -/
def Story.save (s : Story) (now : Int) : PersistedStoryRecord :=
  { MessageID := s.MessageID, ID := s.ID, LastSave := now }

/-- `(*Story).ShouldIgnore` (story.go): the business filter. -/
def Story.ShouldIgnore (cfg : Thresholds) (s : Story) : Bool :=
  s.type != "story" ||
    decide (s.Score < cfg.ScoreThreshold) ||
    decide (s.Descendants < cfg.NumCommentsThreshold) ||
    s.URL == ""

/-- `NewsURL` (main.go): permalink to the Hacker News page of the story. -/
def NewsURL (id : Int) : String :=
  "https://news.ycombinator.com/item?id=" ++ toString id

/-- `InlineKeyboardButton` (Telegram types file). -/
structure InlineKeyboardButton where
  Text : String
  URL : String
deriving DecidableEq, Repr

/-- `InlineKeyboardMarkup` (Telegram types file). -/
structure InlineKeyboardMarkup where
  InlineKeyboard : List (List InlineKeyboardButton)
deriving DecidableEq, Repr

/-- `(*Story).GetReplyMarkup` (story.go). Note the literal `+` in the
format strings `"Score: %d+%s"` and `"Comments: %d+%s"`. -/
def Story.GetReplyMarkup (s : Story) : InlineKeyboardMarkup :=
  let scoreSuffix : String := if s.Score > 100 then " " ++ Hot else ""
  let commentSuffix : String := if s.Descendants > 100 then " " ++ Hot else ""
  { InlineKeyboard := [[
      { Text := "Score: " ++ toString s.Score ++ "+" ++ scoreSuffix,
        URL := s.URL },
      { Text := "Comments: " ++ toString s.Descendants ++ "+" ++ commentSuffix,
        URL := NewsURL s.ID } ]] }

/-- `SendMessageRequest` (Telegram types file). -/
structure SendMessageRequest where
  ChatID : String
  Text : String
  ParseMode : String
  ReplyMarkup : InlineKeyboardMarkup
deriving DecidableEq, Repr

/-- `EditMessageTextRequest` (Telegram types file). -/
structure EditMessageTextRequest where
  ChatID : String
  MessageID : Int
  Text : String
  ParseMode : String
  ReplyMarkup : InlineKeyboardMarkup
deriving DecidableEq, Repr

/-- `DeleteMessageRequest` (Telegram types file). -/
structure DeleteMessageRequest where
  ChatID : String
  MessageID : Int
deriving DecidableEq, Repr

/-- `DeleteMessageResponse` (Telegram types file). -/
structure DeleteMessageResponse where
  OK : Bool
  ErrorCode : Int
  Description : String
deriving DecidableEq, Repr

/-- `(*DeleteMessageResponse).ShouldIgnoreError` (Telegram types file). -/
def DeleteMessageResponse.ShouldIgnoreError (r : DeleteMessageResponse) : Bool :=
  r.ErrorCode == 400 &&
    (strContains r.Description "message to delete not found" ||
      strContains r.Description "message can\x27t be deleted")

/-- `(*Story).ToSendMessageRequest` (story.go). -/
def Story.ToSendMessageRequest (s : Story) : SendMessageRequest :=
  { ChatID := DefaultChatID,
    Text := "<b>" ++ s.Title ++ "</b>  " ++ s.URL,
    ParseMode := "HTML",
    ReplyMarkup := s.GetReplyMarkup }

/-- `(*Story).ToEditMessageTextRequest` (story.go). -/
def Story.ToEditMessageTextRequest (s : Story) : EditMessageTextRequest :=
  { ChatID := DefaultChatID,
    MessageID := s.MessageID,
    Text := "<b>" ++ s.Title ++ "</b>  " ++ s.URL,
    ParseMode := "HTML",
    ReplyMarkup := s.GetReplyMarkup }

/-- `(*Story).ToDeleteMessageRequest` (story.go). -/
def Story.ToDeleteMessageRequest (s : Story) : DeleteMessageRequest :=
  { ChatID := DefaultChatID, MessageID := s.MessageID }

/-- Go error values as the dispatch code distinguishes them.
`withStack e` is `errors.WithStack(e)`: a distinct value wrapping `e`, so
the Go interface comparison `err != ErrIgnoredItem` holds for
`withStack ignoredItem` even though the sentinel sits inside. -/
inductive GoError where
  /-- The sentinel `ErrIgnoredItem` (Telegram types file). -/
  | ignoredItem : GoError
  /-- `errors.WithStack e`. -/
  | withStack : GoError → GoError
  /-- `fmt.Errorf("story already posted: ...")` built in `SendMessage`. -/
  | alreadyPosted : Int → GoError
  /-- A transport-level error from `myHTTPClient(ctx).Get`/`.Post`. -/
  | httpError : GoError
  /-- A `json.Decoder.Decode` failure. -/
  | decodeError : GoError
deriving DecidableEq, Repr

/-- `(*Story).FillMissingFields` (story.go): GET the item API and decode
the JSON into the story. `fetch` is the answer of the world for this item.
On success the decode overwrites exactly the JSON-tagged fields and the
method sets `missingFieldsLoaded`; on failure the error is wrapped by
`errors.WithStack`. -/
def Story.FillMissingFields (s : Story) (fetch : Except GoError FeedItem) :
    Except GoError Story :=
  match fetch with
  | .error e => .error (.withStack e)
  | .ok item => .ok { s with
      ID := item.id, URL := item.url, Title := item.title,
      Descendants := item.descendants, Score := item.score,
      type := item.type, missingFieldsLoaded := true }

/-- The datastore as an association list from item ID to persisted record. -/
abbrev Datastore := List (Int × PersistedStoryRecord)

/-- Datastore lookup by key. -/
def Datastore.get (d : Datastore) (k : Int) : Option PersistedStoryRecord :=
  (List.find? (fun p => p.1 == k) d).map (fun p => p.2)

/-- `datastore.Put`: upsert the record under key `k`. -/
def Datastore.put (d : Datastore) (k : Int) (v : PersistedStoryRecord) : Datastore :=
  (k, v) :: List.filter (fun p => p.1 != k) d

/-- `datastore.Delete`: drop the record under key `k`. -/
def Datastore.del (d : Datastore) (k : Int) : Datastore :=
  List.filter (fun p => p.1 != k) d

/-- What the Telegram `sendMessage` POST produced, as `SendMessage` sees it:
a transport error, a body that fails to decode, or a decoded
`SendMessageResponse` from which the code reads only `Result.MessageID`. -/
inductive SendResult where
  | httpError : SendResult
  | decodeError : SendResult
  | response : Int → SendResult
deriving DecidableEq, Repr

/-- Outcome of one `(*Story).SendMessage` call: the Go return value (the
updated story on `nil` error), the request if the POST was reached, and
whether the channel was called at all. -/
structure SendAttempt where
  result : Except GoError Story
  request : Option SendMessageRequest
  channelCalled : Bool
deriving Repr

/-- `(*Story).SendMessage` (story.go). `fetch` is the item-API answer,
`inDatastore` the answer of the `InDatastore` duplicate-guard query at
guard-check time, `sendRes` the Telegram POST outcome. The filter and the
guard run before the request is built; on a decoded response the code
stores `response.Result.MessageID` into the story and returns `nil`. -/
def Story.SendMessage (cfg : Thresholds) (s : Story)
    (fetch : Except GoError FeedItem) (inDatastore : Bool)
    (sendRes : SendResult) : SendAttempt :=
  match (if s.missingFieldsLoaded then .ok s else s.FillMissingFields fetch :
      Except GoError Story) with
  | .error e => { result := .error e, request := none, channelCalled := false }
  | .ok s1 =>
    if s1.ShouldIgnore cfg then
      { result := .error .ignoredItem, request := none, channelCalled := false }
    else if inDatastore then
      { result := .error (.withStack (.alreadyPosted s1.ID)),
        request := none, channelCalled := false }
    else
      let req := s1.ToSendMessageRequest
      match sendRes with
      | .httpError =>
        { result := .error (.withStack .httpError),
          request := some req, channelCalled := true }
      | .decodeError =>
        { result := .error (.withStack .decodeError),
          request := some req, channelCalled := true }
      | .response mid =>
        { result := .ok { s1 with MessageID := mid },
          request := some req, channelCalled := true }

/-- Outcome of one `(*Story).EditMessage` call. -/
structure EditAttempt where
  result : Except GoError Story
  request : Option EditMessageTextRequest
  channelCalled : Bool
deriving Repr

/-- `(*Story).EditMessage` (story.go). The filter runs before the request
is built; the sentinel is returned as `errors.WithStack(ErrIgnoredItem)`.
The response body is discarded unread, so the call succeeds whenever the
POST transport does (`postOK`). -/
def Story.EditMessage (cfg : Thresholds) (s : Story)
    (fetch : Except GoError FeedItem) (postOK : Bool) : EditAttempt :=
  match (if s.missingFieldsLoaded then .ok s else s.FillMissingFields fetch :
      Except GoError Story) with
  | .error e => { result := .error e, request := none, channelCalled := false }
  | .ok s1 =>
    if s1.ShouldIgnore cfg then
      { result := .error (.withStack .ignoredItem),
        request := none, channelCalled := false }
    else
      let req := s1.ToEditMessageTextRequest
      if postOK then
        { result := .ok s1, request := some req, channelCalled := true }
      else
        { result := .error (.withStack .httpError),
          request := some req, channelCalled := true }

/-- Outcome of one `(*Story).DeleteMessage` call: whether the persisted
record was removed and whether a non-`nil` error was returned. -/
structure DeleteAttempt where
  removedRecord : Bool
  surfacedError : Bool
deriving DecidableEq, Repr

/-- `(*Story).DeleteMessage` (story.go) on a decoded channel response `r`:
a failure response whose description is not ignorable returns an error
before the `datastore.Delete`; success or an ignorable failure falls
through to the record removal. -/
def Story.DeleteMessage (r : DeleteMessageResponse) : DeleteAttempt :=
  if !r.OK && !r.ShouldIgnoreError then
    { removedRecord := false, surfacedError := true }
  else
    { removedRecord := true, surfacedError := false }

/-- Result of one dispatched task (the `delay.Func` bodies in main.go):
the datastore after the task, whether `log.Errorf` was hit for the action
error, and whether/which channel request was made. -/
structure TaskResult where
  store : Datastore
  loggedAsError : Bool
  channelCalled : Bool
deriving Repr

/-- `sendMessageFunc` (main.go): the Create dispatch. Builds
`Story{ID: itemID}`, calls `SendMessage`; an error other than the bare
sentinel `ErrIgnoredItem` is logged via `log.Errorf`, and in every error
case the function returns without touching the datastore; on success it
`datastore.Put`s the `Save` projection of the story under `GetKey(ctx, itemID)`. -/
def sendMessageFunc (cfg : Thresholds) (fetch : Except GoError FeedItem)
    (inDatastore : Bool) (sendRes : SendResult) (now : Int)
    (itemID : Int) (store : Datastore) : TaskResult :=
  let story : Story :=
    { ID := itemID, URL := "", Title := "", Descendants := 0, Score := 0,
      MessageID := 0, LastSave := 0, type := "", missingFieldsLoaded := false }
  let a := story.SendMessage cfg fetch inDatastore sendRes
  match a.result with
  | .error e =>
    { store := store, loggedAsError := decide (e ≠ .ignoredItem),
      channelCalled := a.channelCalled }
  | .ok s1 =>
    { store := store.put itemID (s1.save now), loggedAsError := false,
      channelCalled := a.channelCalled }

/-- `editMessageFunc` (main.go): the Update dispatch. Builds
`Story{ID: itemID, MessageID: messageID}`, calls `EditMessage`; an error
other than the bare sentinel `ErrIgnoredItem` is logged via `log.Errorf`,
and in every error case the function returns without touching the
datastore; on success it `datastore.Put`s the `Save` projection of the story
under `GetKey(ctx, itemID)`. -/
def editMessageFunc (cfg : Thresholds) (fetch : Except GoError FeedItem)
    (postOK : Bool) (now : Int) (itemID messageID : Int)
    (store : Datastore) : TaskResult :=
  let story : Story :=
    { ID := itemID, URL := "", Title := "", Descendants := 0, Score := 0,
      MessageID := messageID, LastSave := 0, type := "",
      missingFieldsLoaded := false }
  let a := story.EditMessage cfg fetch postOK
  match a.result with
  | .error e =>
    { store := store, loggedAsError := decide (e ≠ .ignoredItem),
      channelCalled := a.channelCalled }
  | .ok s1 =>
    { store := store.put itemID (s1.save now), loggedAsError := false,
      channelCalled := a.channelCalled }

/-- `deleteMessageFunc` (main.go) together with the body of
`(*Story).DeleteMessage` around the response handling: `resp` is the
decoded channel response (or a transport/decode failure). A surfaced error
is logged and leaves the store untouched; otherwise the record under
`itemID` is removed. -/
def deleteMessageFunc (resp : Except GoError DeleteMessageResponse)
    (itemID : Int) (store : Datastore) : Datastore × Bool :=
  match resp with
  | .error _ => (store, true)
  | .ok r =>
    let a := Story.DeleteMessage r
    if a.removedRecord then (store.del itemID, a.surfacedError)
    else (store, a.surfacedError)

/-- The per-key outcome of `datastore.GetMulti` inside an
`appengine.MultiError` (main.go, `handler`). -/
inductive KeyErr where
  /-- `err == nil`: the record was found. -/
  | noErr : KeyErr
  /-- `err == datastore.ErrNoSuchEntity`: no record for this key. -/
  | noSuchEntity : KeyErr
  /-- Any other per-key storage error. -/
  | other : KeyErr
deriving DecidableEq, Repr

/-- The overall result of the bulk `datastore.GetMulti` call as `handler`
inspects it (main.go). -/
inductive GetMultiResult where
  /-- `err == nil`: uniform success. -/
  | allOk : GetMultiResult
  /-- `err` is an `appengine.MultiError`, one entry per key. -/
  | multi : List KeyErr → GetMultiResult
  /-- `err` is some other error: `handler` logs and returns. -/
  | unknownErr : GetMultiResult
deriving DecidableEq, Repr

/-- The action `handler` dispatches for one item of the poll cycle. -/
inductive Outcome where
  /-- `editMessageFunc.Call`: an Update action. -/
  | update : Outcome
  /-- `sendMessageFunc.Call`: a Create action. -/
  | create : Outcome
  /-- `log.Errorf` and continue: the item is skipped. -/
  | skip : Outcome
deriving DecidableEq, Repr

/-- The `switch` in the `MultiError` loop of `handler` (main.go): per-key
classification. -/
def classifyKey : KeyErr → Outcome
  | .noErr => .update
  | .noSuchEntity => .create
  | .other => .skip

/-- The classification performed by `handler` (main.go) over the `n`
fetched identifiers: uniform `GetMulti` success dispatches an Update for
every key; a `MultiError` is classified entry by entry; any other bulk
error aborts the cycle with nothing dispatched (`none`). -/
def handlerClassify (n : Nat) : GetMultiResult → Option (List Outcome)
  | .allOk => some (List.replicate n .update)
  | .multi errs => some (errs.map classifyKey)
  | .unknownErr => none

/-- `cleanUpHandler` (main.go): over the scanned records, submit one
`deleteMessageFunc` task `(ID, MessageID)` for each record strictly older
than 24 hours. -/
def cleanUpHandler (now : Int) (allStories : List PersistedStoryRecord) :
    List (Int × Int) :=
  (allStories.filter (fun story => decide (now - story.LastSave > 24 * nsPerHour))).map
    (fun story => (story.ID, story.MessageID))

/-- `IntSet` (intset.go) is `map[int64]struct{}`; the embedding is the
list of its keys in the arbitrary Go map iteration order. -/
abbrev IntSet := List Int

/-- One iteration of the loop in `(*IntSet).Max` (intset.go) under the
loop semantics this GOPATH-era repository compiles with (before the
per-iteration loop variables of Go 1.22): `range` reuses one variable `i`
for the whole loop, and `ret = &i` makes `ret` alias it, so a non-nil
`ret` always dereferences to the current `i`. The state carried here is
the value read through `ret`, with `none` standing for a nil `ret`.
Entering the body, the range statement has already set `i` to the current
key `x`, so the guard `ret == nil || i > *ret` reads `ret == nil || x > x`,
and either way the iteration ends with `ret` pointing at `i`, which holds
`x`. -/
def maxStep (ret : Option Int) (x : Int) : Option Int :=
  match ret with
  | none => some x
  | some _ => if x > x then some x else some x

/-- One iteration of the loop in `(*IntSet).Min` (intset.go): the same
aliasing of the single loop variable as in `maxStep`, with the guard
`i < *ret` reading `x < x`. -/
def minStep (ret : Option Int) (x : Int) : Option Int :=
  match ret with
  | none => some x
  | some _ => if x < x then some x else some x

/-- `(*IntSet).Max` (intset.go) up to the final `return *ret`: the value
of the pointer after the loop; `none` means the function dereferences
`nil` on the empty set. -/
def IntSet.Max (set : IntSet) : Option Int := set.foldl maxStep none

/-- `(*IntSet).Min` (intset.go) up to the final `return *ret`. -/
def IntSet.Min (set : IntSet) : Option Int := set.foldl minStep none

/-- Looking up the key just written returns the written record. -/
theorem Datastore.get_put_self (d : Datastore) (k : Int) (v : PersistedStoryRecord) :
    (d.put k v).get k = some v := by
  simp [Datastore.get, Datastore.put, List.find?_cons_of_pos]

/-- Dropping the entries keyed `k` does not change a lookup at `k2 ≠ k`. -/
theorem find?_filter_ne (t : List (Int × PersistedStoryRecord)) (k k2 : Int)
    (h : k2 ≠ k) :
    List.find? (fun p => p.1 == k2) (List.filter (fun p => p.1 != k) t) =
      List.find? (fun p => p.1 == k2) t := by
  induction t with
  | nil => rfl
  | cons p t ih =>
    by_cases hp : p.1 = k
    · rw [List.filter_cons_of_neg (by simp [hp]),
        List.find?_cons_of_neg _ (by simp only [hp, beq_iff_eq]; exact Ne.symm h)]
      exact ih
    · rw [List.filter_cons_of_pos (by simp [hp])]
      by_cases hk2 : p.1 = k2
      · rw [List.find?_cons_of_pos _ (by simp [hk2]),
          List.find?_cons_of_pos _ (by simp [hk2])]
      · rw [List.find?_cons_of_neg _ (by simp [hk2]),
          List.find?_cons_of_neg _ (by simp [hk2])]
        exact ih

/-- Writing one key leaves every other key of the store unchanged. -/
theorem Datastore.get_put_ne (d : Datastore) (k k2 : Int) (v : PersistedStoryRecord)
    (h : k2 ≠ k) : (d.put k v).get k2 = d.get k2 := by
  simp only [Datastore.get, Datastore.put]
  rw [List.find?_cons_of_neg _ (by simp only [beq_iff_eq]; exact Ne.symm h),
    find?_filter_ne d k k2 h]

/-- C1: `ShouldIgnore` is true exactly when the type is not `"story"`, or
the score is below the score threshold, or the comment count is below the
comment threshold, or the URL is empty; otherwise it is false. -/
theorem C1_ShouldIgnore_iff (cfg : Thresholds) (s : Story) :
    s.ShouldIgnore cfg = true ↔
      (s.type ≠ "story" ∨ s.Score < cfg.ScoreThreshold ∨
        s.Descendants < cfg.NumCommentsThreshold ∨ s.URL = "") := by
  simp [Story.ShouldIgnore, or_assoc]

/-- A concrete story with score 150 and comment count 50, the input named
by the claim about the reply markup. -/
def sampleHotStory : Story :=
  { ID := 1, URL := "https://example.com/a", Title := "T", Descendants := 50,
    Score := 150, MessageID := 0, LastSave := 0, type := "story",
    missingFieldsLoaded := true }

/-- C2 counterexample: at score 150 and comment count 50 the button texts
are `"Score: 150+ 🔥"` and `"Comments: 50+"` — the format strings put a
literal `+` after the number — so they are not the claimed
`"Score: 150 🔥"` and `"Comments: 50"`. -/
theorem C2_counterexample :
    sampleHotStory.GetReplyMarkup.InlineKeyboard ≠
      [[{ Text := "Score: 150 🔥", URL := sampleHotStory.URL },
        { Text := "Comments: 50", URL := NewsURL sampleHotStory.ID }]] ∧
    sampleHotStory.GetReplyMarkup.InlineKeyboard =
      [[{ Text := "Score: 150+ 🔥", URL := sampleHotStory.URL },
        { Text := "Comments: 50+", URL := NewsURL sampleHotStory.ID }]] := by
  exact ⟨by decide, by decide⟩

/-- C2 (amended): the reply markup is one row of exactly two buttons; the
text of the score button renders the score after `Score: ` and a
trailing `+`, with the hot marker appended exactly when score > 100, and it
links to the story URL; the text of the comments button renders the count
after `Comments: ` and a trailing `+`, with the marker appended
exactly when count > 100 and it links to the feed permalink. -/
theorem C2_reply_markup (s : Story) :
    ∃ scoreBtn commentsBtn : InlineKeyboardButton,
      s.GetReplyMarkup.InlineKeyboard = [[scoreBtn, commentsBtn]] ∧
      scoreBtn.Text = "Score: " ++ toString s.Score ++ "+" ++
        (if s.Score > 100 then " " ++ Hot else "") ∧
      scoreBtn.URL = s.URL ∧
      commentsBtn.Text = "Comments: " ++ toString s.Descendants ++ "+" ++
        (if s.Descendants > 100 then " " ++ Hot else "") ∧
      commentsBtn.URL = NewsURL s.ID :=
  ⟨_, _, rfl, rfl, rfl, rfl, rfl⟩

/-- If `SendMessage` returns a `nil` error, the Telegram POST was reached
and produced a decoded response, and its `Result.MessageID` was stored
into the story. -/
theorem SendMessage_ok (cfg : Thresholds) (s : Story)
    (fetch : Except GoError FeedItem) (inDatastore : Bool)
    (sendRes : SendResult) (s1 : Story)
    (h : (s.SendMessage cfg fetch inDatastore sendRes).result = .ok s1) :
    ∃ mid, sendRes = .response mid ∧ s1.MessageID = mid ∧
      (s.SendMessage cfg fetch inDatastore sendRes).channelCalled = true := by
  unfold Story.SendMessage at h ⊢
  rcases hf : (if s.missingFieldsLoaded then .ok s else s.FillMissingFields fetch :
      Except GoError Story) with e | s2
  · rw [hf] at h; simp at h
  · rw [hf] at h
    by_cases hi : s2.ShouldIgnore cfg
    · simp [hi] at h
    · by_cases hd : inDatastore
      · simp [hi, hd] at h
      · cases sendRes with
        | httpError => simp [hi, hd] at h
        | decodeError => simp [hi, hd] at h
        | response mid =>
          simp only [hi, hd, Bool.false_eq_true, if_false, Except.ok.injEq] at h
          exact ⟨mid, rfl, by rw [← h], by simp [hi, hd]⟩

/-- C3: the Create dispatch writes a record only after the channel send
succeeds: if the key was absent before `sendMessageFunc` ran and a record
for it exists afterwards, then the Telegram send returned a decoded
response, the channel was actually called, and the persisted message
identifier is exactly the identifier the response carried. -/
theorem C3_record_only_after_send (cfg : Thresholds)
    (fetch : Except GoError FeedItem) (inDatastore : Bool)
    (sendRes : SendResult) (now itemID : Int) (store : Datastore)
    (rec : PersistedStoryRecord)
    (h0 : store.get itemID = none)
    (h1 : (sendMessageFunc cfg fetch inDatastore sendRes now itemID store).store.get itemID
      = some rec) :
    ∃ mid, sendRes = SendResult.response mid ∧ rec.MessageID = mid ∧
      (sendMessageFunc cfg fetch inDatastore sendRes now itemID store).channelCalled
        = true := by
  simp only [sendMessageFunc] at h1 ⊢
  rcases ha : (Story.SendMessage cfg
      { ID := itemID, URL := "", Title := "", Descendants := 0, Score := 0,
        MessageID := 0, LastSave := 0, type := "", missingFieldsLoaded := false }
      fetch inDatastore sendRes).result with e | s1
  · rw [ha] at h1
    dsimp only at h1
    rw [h0] at h1
    exact absurd h1 (by simp)
  · rw [ha] at h1
    dsimp only at h1
    rw [Datastore.get_put_self] at h1
    obtain ⟨mid, hres, hmid, hcc⟩ := SendMessage_ok cfg _ fetch inDatastore sendRes s1 ha
    refine ⟨mid, hres, ?_, hcc⟩
    have : rec = s1.save now := by injection h1.symm
    rw [this]
    exact hmid

/-- C3 witness: a concrete Create dispatch on an empty store with a
decoded response carrying message identifier 42 writes the record with
MessageID 42, ID 1 and LastSave 999. -/
theorem C3_witness :
    ∃ mid, SendResult.response 42 = SendResult.response mid ∧
      PersistedStoryRecord.MessageID ⟨42, 1, 999⟩ = mid ∧
      (sendMessageFunc ⟨10, 10⟩
        (.ok ⟨1, "https://example.com/a", "T", 20, 30, "story"⟩)
        false (.response 42) 999 1 []).channelCalled = true :=
  C3_record_only_after_send ⟨10, 10⟩
    (.ok ⟨1, "https://example.com/a", "T", 20, 30, "story"⟩)
    false (.response 42) 999 1 [] ⟨42, 1, 999⟩ rfl (by decide)

/-- C4: over the `n` identifiers of a poll cycle, when `GetMulti` surfaces
per-key results the classification in `handler` assigns every item exactly
one outcome — Update for a found key, Create for a missing key, skip for
any other per-key storage error — position by position, so a per-key error
never aborts the classification of the remaining items; and when the bulk
lookup succeeds uniformly every item is classified as Update. -/
theorem C4_classification (n : Nat) (errs : List KeyErr)
    (h : errs.length = n) :
    (∃ outs, handlerClassify n (GetMultiResult.multi errs) = some outs ∧
      outs.length = n ∧
      ∀ i : Nat, outs[i]? = (errs[i]?).map classifyKey) ∧
    (∃ outsU, handlerClassify n GetMultiResult.allOk = some outsU ∧
      outsU.length = n ∧
      ∀ i : Nat, i < n → outsU[i]? = some Outcome.update) := by
  constructor
  · exact ⟨errs.map classifyKey, rfl, by simp [h],
      fun i => by simp [List.getElem?_map]⟩
  · refine ⟨List.replicate n .update, rfl, by simp, fun i hi => ?_⟩
    simp [List.getElem?_replicate, hi]

/-- C4 witness: a three-item cycle whose bulk lookup reports found,
not-found and an unknown storage error is classified Update, Create, skip
in those positions. -/
theorem C4_classification_witness :
    (∃ outs, handlerClassify 3
        (GetMultiResult.multi [KeyErr.noErr, KeyErr.noSuchEntity, KeyErr.other])
        = some outs ∧ outs.length = 3 ∧
      ∀ i : Nat, outs[i]? =
        (([KeyErr.noErr, KeyErr.noSuchEntity, KeyErr.other] : List KeyErr)[i]?).map
          classifyKey) ∧
    (∃ outsU, handlerClassify 3 GetMultiResult.allOk = some outsU ∧
      outsU.length = 3 ∧
      ∀ i : Nat, i < 3 → outsU[i]? = some Outcome.update) :=
  C4_classification 3 [KeyErr.noErr, KeyErr.noSuchEntity, KeyErr.other] rfl

/-- `ShouldIgnoreError` holds exactly for a 400 response whose description
contains one of the two known ignorable texts. -/
theorem ShouldIgnoreError_iff (r : DeleteMessageResponse) :
    r.ShouldIgnoreError = true ↔
      (r.ErrorCode = 400 ∧
        (strContains r.Description "message to delete not found" = true ∨
          strContains r.Description "message can\x27t be deleted" = true)) := by
  simp [DeleteMessageResponse.ShouldIgnoreError]

/-- C5: on a failure response from the channel delete, a 400 whose
description contains one of the two known ignorable texts (message
already deleted; deletion window elapsed) is treated as purge success — the record is removed and no error
surfaces — while every other failure response is fatal for the action: the
record is retained and an error surfaces. -/
theorem C5_delete_failure_handling (r : DeleteMessageResponse) (itemID : Int)
    (store : Datastore) (h : r.OK = false) :
    ((r.ErrorCode = 400 ∧
        (strContains r.Description "message to delete not found" = true ∨
          strContains r.Description "message can\x27t be deleted" = true)) →
      (deleteMessageFunc (.ok r) itemID store).1 = store.del itemID ∧
      (deleteMessageFunc (.ok r) itemID store).2 = false) ∧
    (¬(r.ErrorCode = 400 ∧
        (strContains r.Description "message to delete not found" = true ∨
          strContains r.Description "message can\x27t be deleted" = true)) →
      (deleteMessageFunc (.ok r) itemID store).1 = store ∧
      (deleteMessageFunc (.ok r) itemID store).2 = true) := by
  constructor
  · intro hig
    have hie : r.ShouldIgnoreError = true := (ShouldIgnoreError_iff r).2 hig
    simp [deleteMessageFunc, Story.DeleteMessage, h, hie]
  · intro hnig
    have hie : r.ShouldIgnoreError = false := by
      rw [← Bool.not_eq_true]
      intro hc
      exact hnig ((ShouldIgnoreError_iff r).1 hc)
    simp [deleteMessageFunc, Story.DeleteMessage, h, hie]

/-- C5 witness: a not-ok 400 response mentioning the message-not-found
text removes the stored record for item 7 and surfaces no error, while a
not-ok 403 chat-not-found response leaves the store untouched and
surfaces a fatal error. -/
theorem C5_delete_failure_handling_witness :
    ((deleteMessageFunc
        (.ok ⟨false, 400, "Bad Request: message to delete not found"⟩)
        7 [(7, ⟨99, 7, 0⟩)]).1 = Datastore.del [(7, ⟨99, 7, 0⟩)] 7 ∧
      (deleteMessageFunc
        (.ok ⟨false, 400, "Bad Request: message to delete not found"⟩)
        7 [(7, ⟨99, 7, 0⟩)]).2 = false) ∧
    ((deleteMessageFunc (.ok ⟨false, 403, "chat not found"⟩)
        7 [(7, ⟨99, 7, 0⟩)]).1 = [(7, ⟨99, 7, 0⟩)] ∧
      (deleteMessageFunc (.ok ⟨false, 403, "chat not found"⟩)
        7 [(7, ⟨99, 7, 0⟩)]).2 = true) :=
  ⟨(C5_delete_failure_handling
      ⟨false, 400, "Bad Request: message to delete not found"⟩
      7 [(7, ⟨99, 7, 0⟩)] rfl).1 (by decide),
    (C5_delete_failure_handling ⟨false, 403, "chat not found"⟩
      7 [(7, ⟨99, 7, 0⟩)] rfl).2 (by decide)⟩

/-- C6 (code bug evidence): a filtered-out item behaves asymmetrically in
the two dispatch paths. For the Update dispatch of item 1 (a `"job"` item,
hence filtered), `editMessageFunc` hits `log.Errorf` — because
`EditMessage` returns `errors.WithStack(ErrIgnoredItem)` and the wrapped
value compares unequal to the bare sentinel in `err != ErrIgnoredItem` —
even though no channel call and no store write happen; the Create dispatch
of the same item returns the bare sentinel and is correctly not logged as
an error. -/
theorem C6_update_ignored_logged_as_error :
    (editMessageFunc ⟨100, 100⟩ (.ok ⟨1, "https://example.com/a", "T", 3, 5, "job"⟩)
      true 999 1 5 []).loggedAsError = true ∧
    (editMessageFunc ⟨100, 100⟩ (.ok ⟨1, "https://example.com/a", "T", 3, 5, "job"⟩)
      true 999 1 5 []).channelCalled = false ∧
    (editMessageFunc ⟨100, 100⟩ (.ok ⟨1, "https://example.com/a", "T", 3, 5, "job"⟩)
      true 999 1 5 []).store = [] ∧
    (sendMessageFunc ⟨100, 100⟩ (.ok ⟨1, "https://example.com/a", "T", 3, 5, "job"⟩)
      false (.response 42) 999 1 []).loggedAsError = false ∧
    (sendMessageFunc ⟨100, 100⟩ (.ok ⟨1, "https://example.com/a", "T", 3, 5, "job"⟩)
      false (.response 42) 999 1 []).channelCalled = false ∧
    (sendMessageFunc ⟨100, 100⟩ (.ok ⟨1, "https://example.com/a", "T", 3, 5, "job"⟩)
      false (.response 42) 999 1 []).store = [] := by
  decide

/-- C7: an Update dispatch whose enriched item passes the filter sends the
channel edit request targeting exactly the known message identifier, and
on success persists the record with MessageID messageID, ID itemID and
LastSave now — identifier and message identifier unchanged, only the
timestamp refreshed — leaving every other key of the store untouched. -/
theorem C7_update_preserves_identifiers (cfg : Thresholds) (item : FeedItem)
    (now itemID messageID : Int) (store : Datastore)
    (hid : item.id = itemID)
    (hpass : Story.ShouldIgnore cfg
      { ID := item.id, URL := item.url, Title := item.title,
        Descendants := item.descendants, Score := item.score,
        MessageID := messageID, LastSave := 0, type := item.type,
        missingFieldsLoaded := true } = false) :
    (∃ req, (Story.EditMessage cfg
        ⟨itemID, "", "", 0, 0, messageID, 0, "", false⟩ (.ok item) true).request
          = some req ∧ req.MessageID = messageID) ∧
    (editMessageFunc cfg (.ok item) true now itemID messageID store).store.get itemID
      = some ⟨messageID, itemID, now⟩ ∧
    (editMessageFunc cfg (.ok item) true now itemID messageID store).loggedAsError
      = false ∧
    ∀ k, k ≠ itemID →
      (editMessageFunc cfg (.ok item) true now itemID messageID store).store.get k
        = store.get k := by
  subst hid
  refine ⟨?_, ?_, ?_, ?_⟩
  · exact ⟨(Story.mk item.id item.url item.title item.descendants item.score
        messageID 0 item.type true).ToEditMessageTextRequest,
      by simp [Story.EditMessage, Story.FillMissingFields, hpass], rfl⟩
  · simp [editMessageFunc, Story.EditMessage, Story.FillMissingFields, hpass,
      Datastore.get_put_self, Story.save]
  · simp [editMessageFunc, Story.EditMessage, Story.FillMissingFields, hpass]
  · intro k hk
    simp only [editMessageFunc, Story.EditMessage, Story.FillMissingFields, hpass,
      Bool.false_eq_true, if_false]
    exact Datastore.get_put_ne store item.id k _ hk

/-- C7 witness: a concrete passing Update dispatch (item 1, message 5, at
time 999) targets message 5 and writes exactly the record with
MessageID 5, ID 1 and LastSave 999. -/
theorem C7_update_preserves_identifiers_witness :
    (∃ req, (Story.EditMessage ⟨10, 10⟩
        ⟨1, "", "", 0, 0, 5, 0, "", false⟩
        (.ok ⟨1, "https://example.com/a", "T", 20, 30, "story"⟩) true).request
          = some req ∧ req.MessageID = 5) ∧
    (editMessageFunc ⟨10, 10⟩
      (.ok ⟨1, "https://example.com/a", "T", 20, 30, "story"⟩)
      true 999 1 5 []).store.get 1 = some ⟨5, 1, 999⟩ ∧
    (editMessageFunc ⟨10, 10⟩
      (.ok ⟨1, "https://example.com/a", "T", 20, 30, "story"⟩)
      true 999 1 5 []).loggedAsError = false ∧
    ∀ k, k ≠ (1 : Int) →
      (editMessageFunc ⟨10, 10⟩
        (.ok ⟨1, "https://example.com/a", "T", 20, 30, "story"⟩)
        true 999 1 5 []).store.get k = Datastore.get [] k :=
  C7_update_preserves_identifiers ⟨10, 10⟩
    ⟨1, "https://example.com/a", "T", 20, 30, "story"⟩ 999 1 5 [] rfl (by decide)

/-- C9: a Create dispatch whose enriched item passes the filter but whose
identifier already has a persisted record at guard-check time terminates
with the distinct already-posted error before any channel send — no
request is built, the channel is not called — and the dispatching task
leaves the store untouched. -/
theorem C9_create_duplicate_guard (cfg : Thresholds) (item : FeedItem)
    (sendRes : SendResult) (now itemID : Int) (store : Datastore)
    (hpass : Story.ShouldIgnore cfg
      { ID := item.id, URL := item.url, Title := item.title,
        Descendants := item.descendants, Score := item.score,
        MessageID := 0, LastSave := 0, type := item.type,
        missingFieldsLoaded := true } = false) :
    (Story.SendMessage cfg ⟨itemID, "", "", 0, 0, 0, 0, "", false⟩
        (.ok item) true sendRes).result
      = .error (.withStack (.alreadyPosted item.id)) ∧
    (Story.SendMessage cfg ⟨itemID, "", "", 0, 0, 0, 0, "", false⟩
        (.ok item) true sendRes).channelCalled = false ∧
    (Story.SendMessage cfg ⟨itemID, "", "", 0, 0, 0, 0, "", false⟩
        (.ok item) true sendRes).request = none ∧
    (sendMessageFunc cfg (.ok item) true sendRes now itemID store).store = store := by
  refine ⟨?_, ?_, ?_, ?_⟩
  · simp [Story.SendMessage, Story.FillMissingFields, hpass]
  · simp [Story.SendMessage, Story.FillMissingFields, hpass]
  · simp [Story.SendMessage, Story.FillMissingFields, hpass]
  · simp [sendMessageFunc, Story.SendMessage, Story.FillMissingFields, hpass]

/-- C9 witness: item 1 passes the filter, a record for it exists at
guard-check time, and the concrete Create dispatch stops with the
already-posted error, no channel call, no request and no store change. -/
theorem C9_create_duplicate_guard_witness :
    (Story.SendMessage ⟨10, 10⟩ ⟨1, "", "", 0, 0, 0, 0, "", false⟩
        (.ok ⟨1, "https://example.com/a", "T", 20, 30, "story"⟩)
        true (.response 42)).result
      = .error (.withStack (.alreadyPosted 1)) ∧
    (Story.SendMessage ⟨10, 10⟩ ⟨1, "", "", 0, 0, 0, 0, "", false⟩
        (.ok ⟨1, "https://example.com/a", "T", 20, 30, "story"⟩)
        true (.response 42)).channelCalled = false ∧
    (Story.SendMessage ⟨10, 10⟩ ⟨1, "", "", 0, 0, 0, 0, "", false⟩
        (.ok ⟨1, "https://example.com/a", "T", 20, 30, "story"⟩)
        true (.response 42)).request = none ∧
    (sendMessageFunc ⟨10, 10⟩
      (.ok ⟨1, "https://example.com/a", "T", 20, 30, "story"⟩)
      true (.response 42) 999 1 [(1, ⟨7, 1, 0⟩)]).store = [(1, ⟨7, 1, 0⟩)] :=
  C9_create_duplicate_guard ⟨10, 10⟩
    ⟨1, "https://example.com/a", "T", 20, 30, "story"⟩
    (.response 42) 999 1 [(1, ⟨7, 1, 0⟩)] (by decide)

/-- No sweep task carries the identifier `sid` when no scanned record has
that identifier. -/
theorem sweep_countP_zero (now : Int) (t : List PersistedStoryRecord) (sid : Int)
    (hid : sid ∉ t.map PersistedStoryRecord.ID) :
    List.countP (fun task => task.1 == sid)
      (List.map (fun story => (story.ID, story.MessageID))
        (List.filter (fun story => decide (now - story.LastSave > 24 * nsPerHour)) t))
      = 0 := by
  rw [List.countP_eq_zero]
  intro task htask
  obtain ⟨s, hs, rfl⟩ := List.mem_map.1 htask
  have hst : s ∈ t := (List.mem_filter.1 hs).1
  simp only [beq_iff_eq]
  exact fun he => hid (he ▸ List.mem_map_of_mem PersistedStoryRecord.ID hst)

/-- With pairwise-distinct record identifiers, the sweep submits exactly
one task keyed by the identifier of a scanned record when that record is past
the retention threshold, and none otherwise. -/
theorem sweep_countP (now : Int) (l : List PersistedStoryRecord)
    (story : PersistedStoryRecord)
    (hnd : (l.map PersistedStoryRecord.ID).Nodup) (hmem : story ∈ l) :
    (cleanUpHandler now l).countP (fun task => task.1 == story.ID)
      = if now - story.LastSave > 24 * nsPerHour then 1 else 0 := by
  induction l with
  | nil => cases hmem
  | cons a t ih =>
    rw [List.map_cons, List.nodup_cons] at hnd
    unfold cleanUpHandler at ih ⊢
    rcases List.mem_cons.1 hmem with rfl | h1
    · have ht := sweep_countP_zero now t story.ID hnd.1
      by_cases he : now - story.LastSave > 24 * nsPerHour
      · rw [List.filter_cons_of_pos (by simpa using he), List.map_cons,
          List.countP_cons, ht]
        simp [he]
      · rw [List.filter_cons_of_neg (by simpa using he), ht]
        simp [he]
    · have hne : a.ID ≠ story.ID :=
        fun he => hnd.1 (he ▸ List.mem_map_of_mem PersistedStoryRecord.ID h1)
      by_cases ha : now - a.LastSave > 24 * nsPerHour
      · rw [List.filter_cons_of_pos (by simpa using ha), List.map_cons,
          List.countP_cons]
        simp only [beq_iff_eq]
        rw [if_neg hne]
        simpa using ih hnd.2 h1
      · rw [List.filter_cons_of_neg (by simpa using ha)]
        exact ih hnd.2 h1

/-- C8: over scanned records with pairwise-distinct identifiers, the sweep
submits exactly one Delete task — carrying the identifier of the record and
message identifier — for each record strictly older than 24 hours, no task
for a record at or under the threshold, and nothing else: every submitted
task comes from some over-threshold scanned record. -/
theorem C8_retention_sweep (now : Int) (allStories : List PersistedStoryRecord)
    (hnd : (allStories.map PersistedStoryRecord.ID).Nodup) :
    (∀ story ∈ allStories,
      (cleanUpHandler now allStories).countP (fun task => task.1 == story.ID)
        = (if now - story.LastSave > 24 * nsPerHour then 1 else 0) ∧
      (now - story.LastSave > 24 * nsPerHour →
        (story.ID, story.MessageID) ∈ cleanUpHandler now allStories)) ∧
    (∀ task ∈ cleanUpHandler now allStories,
      ∃ story, story ∈ allStories ∧ task = (story.ID, story.MessageID) ∧
        now - story.LastSave > 24 * nsPerHour) := by
  constructor
  · intro story hmem
    refine ⟨sweep_countP now allStories story hnd hmem, fun helig => ?_⟩
    unfold cleanUpHandler
    exact List.mem_map_of_mem _ (List.mem_filter.2 ⟨hmem, by simpa using helig⟩)
  · intro task htask
    unfold cleanUpHandler at htask
    obtain ⟨s, hs, rfl⟩ := List.mem_map.1 htask
    have h1 := List.mem_filter.1 hs
    exact ⟨s, h1.1, rfl, by simpa using h1.2⟩

/-- C8 witness: at time `24h + 1ns`, of two records — one saved at time 0
(age just over 24 hours) and one saved now — exactly the first yields a
Delete task, carrying its identifier 1 and message identifier 5. -/
theorem C8_retention_sweep_witness :
    (∀ story ∈ ([⟨5, 1, 0⟩, ⟨6, 2, 24 * nsPerHour + 1⟩] :
        List PersistedStoryRecord),
      (cleanUpHandler (24 * nsPerHour + 1)
          [⟨5, 1, 0⟩, ⟨6, 2, 24 * nsPerHour + 1⟩]).countP
          (fun task => task.1 == story.ID)
        = (if 24 * nsPerHour + 1 - story.LastSave > 24 * nsPerHour
            then 1 else 0) ∧
      (24 * nsPerHour + 1 - story.LastSave > 24 * nsPerHour →
        (story.ID, story.MessageID) ∈ cleanUpHandler (24 * nsPerHour + 1)
          [⟨5, 1, 0⟩, ⟨6, 2, 24 * nsPerHour + 1⟩])) ∧
    (∀ task ∈ cleanUpHandler (24 * nsPerHour + 1)
        [⟨5, 1, 0⟩, ⟨6, 2, 24 * nsPerHour + 1⟩],
      ∃ story, story ∈ ([⟨5, 1, 0⟩, ⟨6, 2, 24 * nsPerHour + 1⟩] :
          List PersistedStoryRecord) ∧
        task = (story.ID, story.MessageID) ∧
        24 * nsPerHour + 1 - story.LastSave > 24 * nsPerHour) :=
  C8_retention_sweep (24 * nsPerHour + 1)
    [⟨5, 1, 0⟩, ⟨6, 2, 24 * nsPerHour + 1⟩] (by decide)

/-- Because `ret` aliases the single loop variable, the `Max` loop ends
with `ret` pointing at the last iterated key: its dereferenced value is
the last element of the iteration order, regardless of magnitudes. -/
theorem foldl_maxStep_last (l : List Int) (x : Int) :
    l.foldl maxStep (some x) = some (l.getLastD x) := by
  induction l generalizing x with
  | nil => rfl
  | cons a t ih =>
    rw [List.foldl_cons, show maxStep (some x) a = some a by simp [maxStep]]
    rw [ih a, List.getLastD_cons]

/-- The `Min` loop likewise ends with `ret` pointing at the last iterated
key. -/
theorem foldl_minStep_last (l : List Int) (x : Int) :
    l.foldl minStep (some x) = some (l.getLastD x) := by
  induction l generalizing x with
  | nil => rfl
  | cons a t ih =>
    rw [List.foldl_cons, show minStep (some x) a = some a by simp [minStep]]
    rw [ih a, List.getLastD_cons]

/-- On every non-empty iteration order, `Max` and `Min` both return the
last iterated key, whatever its magnitude. -/
theorem IntSet.Max_Min_eq_last (a : Int) (t : List Int) :
    IntSet.Max (a :: t) = some (t.getLastD a) ∧
    IntSet.Min (a :: t) = some (t.getLastD a) :=
  ⟨foldl_maxStep_last t a, foldl_minStep_last t a⟩

/-- C10 (code bug evidence): `ret = &i` aliases the loop variable, so on
the set with keys 3 and 1 iterated as `[3, 1]` the `Max` loop returns 1
even though the member 3 exceeds it, and iterated as `[1, 3]` the `Min`
loop returns 3 even though the member 1 is below it — the last iterated
key, not the maximum and minimum that the claim (and the doc comments of
the functions) state. On the empty set both loops leave `ret` nil and the
final dereference has no defined result (`none`), with no explicit error
value, exactly as the claim states. -/
theorem C10_intset_returns_last_key :
    IntSet.Max [3, 1] = some 1 ∧ (3 : Int) ∈ ([3, 1] : IntSet) ∧
      ¬((3 : Int) ≤ 1) ∧
    IntSet.Min [1, 3] = some 3 ∧ (1 : Int) ∈ ([1, 3] : IntSet) ∧
      ¬((3 : Int) ≤ 1) ∧
    IntSet.Max [] = none ∧ IntSet.Min [] = none := by
  decide
